import Mathlib

/-!
Shallow embedding of the device-status synchronization engine of the
homebridge-smarteefi plugin.

The embedded code:
* `Status` / `DeviceStatus` store operations — from `src/lib/SmarteefiHelper.ts`
  (the `Config` part concatenated in that file: class `Status` and
  class `DeviceStatus`).
* Protocol codec helpers — `getSwitchMap`, `valueToPercent`, `decodeStatus`
  from `src/lib/SmarteefiHelper.ts`, plus the inline percent→level
  conversion of `FanAccessory.setSpeed`.
* Command handlers — `FanAccessory.setONOFFState`, `FanAccessory.setSpeed`
  (success-confirm step and its debounce stage), `FanAccessory.getONOFFState`.
* Reconciliation — the per-device poll-merge step of
  `SmarteefiPlatform.executeRefreshCycle` in `src/platform.ts`.

JavaScript numbers are embedded as `Int` (all values the engine stores are
small integers); `null` becomes `none`; an *omitted* optional argument is
distinguished from an explicit `null` by an outer `Option` layer.
The store is a list of records mutated in place in the source; here every
operation returns the new list, rewriting the first record whose id matches
(`Array.prototype.find` semantics).
-/

namespace Smarteefi

/-- Rollback snapshot `{statusmap, speedValue}` (field `previousState` of
class `Status` in the source). -/
structure PrevState where
  statusmap : Int
  speedValue : Option Int
deriving Repr, DecidableEq

/-- One cache record per device: class `Status` of the source
(`src/lib/SmarteefiHelper.ts`, Config part). -/
structure Status where
  id : String
  switchmap : Int
  statusmap : Int
  speedValue : Option Int
  preservedSpeedValue : Option Int
  preservedAtOff : Option Int
  lastCommandTimestamp : Int
  pendingUpdate : Bool
  previousState : Option PrevState
deriving Repr, DecidableEq

/-- The `Status` constructor: `new Status(id, switchmap, statusmap, speedValue)`
initialises the bookkeeping fields to `null` / `0` / `false` / undefined. -/
def Status.mkNew (id : String) (switchmap statusmap : Int)
    (speedValue : Option Int) : Status :=
  { id := id
    switchmap := switchmap
    statusmap := statusmap
    speedValue := speedValue
    preservedSpeedValue := none
    preservedAtOff := none
    lastCommandTimestamp := 0
    pendingUpdate := false
    previousState := none }

/-- The `DeviceStatus.statuses` array. -/
abbrev Store := List Status

/-- Source method `DeviceStatus.getStatusMap(id)`: `this.statuses.find(v => v.id === id)`
— the first record whose id matches, if any. -/
def getStatusMap (store : Store) (id : String) : Option Status :=
  match store with
  | [] => none
  | s :: rest => if s.id == id then some s else getStatusMap rest id

/-- In-place mutation of the record found by `getStatusMap`: rewrite the
first record whose id matches, leave everything else untouched. -/
def updateById (store : Store) (id : String) (f : Status → Status) : Store :=
  match store with
  | [] => []
  | s :: rest => if s.id == id then f s :: rest else s :: updateById rest id f

/-- Source method `DeviceStatus.setStatusMap(id, switchmap, statusmap, speedValue?)`.
`speedValue?` is the outer `Option`: `none` = argument omitted
(`undefined`), `some v` = argument passed (`v = none` is an explicit
`null`).  Creates the record if absent; otherwise always overwrites
`switchmap`/`statusmap` and overwrites `speedValue` only when the argument
was passed. -/
def setStatusMap (store : Store) (id : String) (switchmap statusmap : Int)
    (speedValue : Option (Option Int)) : Store :=
  match getStatusMap store id with
  | none => store ++ [Status.mkNew id switchmap statusmap (speedValue.getD none)]
  | some _ =>
      updateById store id (fun s =>
        { s with
          switchmap := switchmap
          statusmap := statusmap
          speedValue := match speedValue with
            | none => s.speedValue
            | some v => v })

/-- Source method `DeviceStatus.setPreservedSpeedValue(id, preserved)`: no-op when the
record is absent. -/
def setPreservedSpeedValue (store : Store) (id : String)
    (preserved : Option Int) : Store :=
  updateById store id (fun s => { s with preservedSpeedValue := preserved })

/-- Source method `DeviceStatus.getPreservedSpeedValue(id)`. -/
def getPreservedSpeedValue (store : Store) (id : String) : Option Int :=
  match getStatusMap store id with
  | some s => s.preservedSpeedValue
  | none => none

/-- Source method `DeviceStatus.setPreservedAtOff(id, preserved)`: no-op when the record
is absent. -/
def setPreservedAtOff (store : Store) (id : String)
    (preserved : Option Int) : Store :=
  updateById store id (fun s => { s with preservedAtOff := preserved })

/-- Source method `DeviceStatus.getPreservedAtOff(id)`. -/
def getPreservedAtOff (store : Store) (id : String) : Option Int :=
  match getStatusMap store id with
  | some s => s.preservedAtOff
  | none => none

/-- Source method `DeviceStatus.markCommandInProgress(id)`; `Date.now()` is passed in as
`now`. -/
def markCommandInProgress (now : Int) (store : Store) (id : String) : Store :=
  updateById store id (fun s =>
    { s with pendingUpdate := true, lastCommandTimestamp := now })

/-- Source method `DeviceStatus.markCommandComplete(id)`. -/
def markCommandComplete (store : Store) (id : String) : Store :=
  updateById store id (fun s => { s with pendingUpdate := false })

/-- Source method `DeviceStatus.shouldSkipRefreshUpdate(id, graceMs)`: true when a record
exists and either `pendingUpdate` is set or the last command is younger
than the grace window. -/
def shouldSkipRefreshUpdate (now : Int) (store : Store) (id : String)
    (graceMs : Int) : Bool :=
  match getStatusMap store id with
  | none => false
  | some s => s.pendingUpdate || (now - s.lastCommandTimestamp < graceMs)

/-- Source method `DeviceStatus.saveRollbackState(id)`: copy the current
`{statusmap, speedValue}` into `previousState` (no-op when absent). -/
def saveRollbackState (store : Store) (id : String) : Store :=
  updateById store id (fun s =>
    { s with previousState := some ⟨s.statusmap, s.speedValue⟩ })

/-- Source method `DeviceStatus.rollbackState(id)`: restore `statusmap`/`speedValue` from
the snapshot and clear it, returning `true`; otherwise return `false`
leaving the store unchanged. -/
def rollbackState (store : Store) (id : String) : Bool × Store :=
  match getStatusMap store id with
  | some s =>
      match s.previousState with
      | some p =>
          (true,
            updateById store id (fun s =>
              { s with
                statusmap := p.statusmap
                speedValue := p.speedValue
                previousState := none }))
      | none => (false, store)
  | none => (false, store)

/-- Source function `getSwitchMap(sequence)`: `Math.pow(2, sequence)`. -/
def getSwitchMap (sequence : Nat) : Int :=
  2 ^ sequence

/-- JavaScript's ToInt32 coercion, applied by `&` and `>>` to their
operands: reduce modulo `2^32` into the signed range
`[-2^31, 2^31)`. -/
def toInt32 (x : Int) : Int :=
  let r := x % 4294967296
  if r < 2147483648 then r else r - 4294967296

/-- JavaScript `a & b`: both operands are coerced to 32 bits, the 32-bit
patterns are and-ed, and the result is sign-extended.  On values in
`[-2^31, 2^31)` the unbounded two's-complement `Int.land` computes exactly
that (the infinite representation of such a value is the sign extension of
its 32-bit pattern). -/
def jsAnd (a b : Int) : Int :=
  Int.land (toInt32 a) (toInt32 b)

/-- JavaScript `a >> s`: the left operand is coerced to 32 bits, the shift
count is taken mod 32, and the shift is arithmetic — on an int32-range
value, `Int.shiftRight` (floor division by `2^s`) computes exactly that. -/
def jsShr (a : Int) (s : Nat) : Int :=
  Int.shiftRight (toInt32 a) (s % 32)

/-- The bit test of `SwitchAccessory.getOn`:
`(statusmap & switchmapBit) !== 0` with `switchmapBit = getSwitchMap(sequence)`,
where `&` is the JavaScript 32-bit operator; `decodeStatus` in
`SmarteefiHelper.ts` computes the same test on the cached `statusmap`. -/
def isOn (statusBitmap : Int) (sequence : Nat) : Bool :=
  jsAnd statusBitmap (getSwitchMap sequence) != 0

/-- Source function `decodeStatus(sequence, deviceId, ...)`: cached `statusmap` (default 0)
masked with `getSwitchMap(sequence)`; `ACTIVE` (true) iff nonzero. -/
def decodeStatus (store : Store) (id : String) (sequence : Nat) : Bool :=
  let statusmap := ((getStatusMap store id).map Status.statusmap).getD 0
  isOn statusmap sequence

/-- Source function `valueToPercent(value)` from `SmarteefiHelper.ts`: API speed level 1–4 to
HomeKit percent, `null`/non-positive/invalid to 0, above 4 capped at 100. -/
def valueToPercent (value : Option Int) : Int :=
  match value with
  | none => 0
  | some v =>
      if v ≤ 0 then 0
      else if v = 1 then 25
      else if v = 2 then 50
      else if v = 3 then 75
      else if v = 4 then 100
      else if v > 4 then 100
      else 0

/-- The inline percent→API-level conversion of `FanAccessory.setSpeed`
(thresholds `<=25 → 1`, `<=50 → 2`, `<=75 → 3`, else `4`); only reached for
`requestedSpeedPercent > 0`. -/
def percentToSpeedLevel (p : Int) : Int :=
  if p ≤ 25 then 1
  else if p ≤ 50 then 2
  else if p ≤ 75 then 3
  else 4

/-- Outcome of a transport call as seen by the command handlers: a callback
response with `result === 'success'`, a callback response without it, or a
thrown exception caught by the surrounding `try`. -/
inductive TransportOutcome where
  | ok
  | err
  | exn
deriving Repr, DecidableEq

/-- Source method `FanAccessory.setONOFFState(value)` — the cache effect of a fan toggle,
from `src/lib/accessories/FanAccessory.ts`:
save rollback snapshot, mark in progress, compute
`newStatusmap = ON ? 112 : 0` and
`speedToStore = OFF ? currentSpeed : ((currentSpeed && currentSpeed > 0) ? currentSpeed : 1)`,
optimistically `setStatusMap(id, 112, newStatusmap, speedToStore)`, then on
the transport response: success → `markCommandComplete`; failure response or
exception → `markCommandComplete` then `rollbackState`. -/
def fanSetOnOff (store : Store) (id : String) (now : Int) (targetOn : Bool)
    (outcome : TransportOutcome) : Store :=
  let s1 := saveRollbackState store id
  let s2 := markCommandInProgress now s1 id
  let currentSpeed : Option Int := (getStatusMap s2 id).bind Status.speedValue
  let newStatusmap : Int := if targetOn then 112 else 0
  let speedToStore : Option Int :=
    if targetOn then
      some (match currentSpeed with
            | some v => if v > 0 then v else 1
            | none => 1)
    else currentSpeed
  let s3 := setStatusMap s2 id 112 newStatusmap (some speedToStore)
  match outcome with
  | .ok => markCommandComplete s3 id
  | .err => (rollbackState (markCommandComplete s3 id) id).2
  | .exn => (rollbackState (markCommandComplete s3 id) id).2

/-- The optimistic stage of `FanAccessory.setSpeed(value)` for a positive
percent: save rollback snapshot, mark in progress, convert the percent to a
level and `setStatusMap(id, 112, 112, targetSpeedValue)`. -/
def fanSetSpeedOptimistic (store : Store) (id : String) (now : Int)
    (requestedSpeedPercent : Int) : Store :=
  let s1 := saveRollbackState store id
  let s2 := markCommandInProgress now s1 id
  setStatusMap s2 id 112 112 (some (some (percentToSpeedLevel requestedSpeedPercent)))

/-- The response stage of `FanAccessory.setSpeed`: `markCommandComplete`,
then on success, if the response carries both `status` and `value`,
`setStatusMap(id, 112, status === 1 ? 112 : 0, value)`; on failure or
exception, `rollbackState`. -/
def fanSetSpeedResponse (store : Store) (id : String)
    (outcome : TransportOutcome) (respStatus respValue : Option Int) : Store :=
  let s1 := markCommandComplete store id
  match outcome with
  | .ok =>
      match respStatus, respValue with
      | some st, some v =>
          setStatusMap s1 id 112 (if st == 1 then 112 else 0) (some (some v))
      | _, _ => s1
  | .err => (rollbackState s1 id).2
  | .exn => (rollbackState s1 id).2

/-- Source method `FanAccessory.getONOFFState()`: cached `statusmap` (default 0) and
`speedValue` (default null); `statusmap === -1` raises
`SERVICE_COMMUNICATION_FAILURE`, otherwise ACTIVE iff `speedValue > 0`. -/
def fanGetOnOffState (store : Store) (id : String) : Except String Bool :=
  let statusmap := ((getStatusMap store id).map Status.statusmap).getD 0
  let speedValue := (getStatusMap store id).bind Status.speedValue
  if statusmap = -1 then
    .error "SERVICE_COMMUNICATION_FAILURE"
  else
    match speedValue with
    | some v => if v > 0 then .ok true else .ok false
    | none => .ok false

/-- The per-device success branch of
`SmarteefiPlatform.executeRefreshCycle` (`src/platform.ts`): parse
`switchmap`/`statusmap` from the poll body (default 0 when absent or not a
number) and `setStatusMap(deviceId, switchmap, statusmap)` with no speed
argument. -/
def executeRefreshSuccess (store : Store) (id : String)
    (bodySwitchmap bodyStatusmap : Option Int) : Store :=
  setStatusMap store id (bodySwitchmap.getD 0) (bodyStatusmap.getD 0) none

/-- The per-device failure branch of
`SmarteefiPlatform.executeRefreshCycle`:
`setStatusMap(deviceId, -1, -1, undefined)` — the speed argument is
`undefined`, i.e. omitted. -/
def executeRefreshFailure (store : Store) (id : String) : Store :=
  setStatusMap store id (-1) (-1) none

/-- The debounce stage of `FanAccessory.setSpeed`: each request clears any
pending timer and arms a new one `300` ms out carrying its own percent; a
pending timer whose deadline has passed by the time the next request
arrives has already fired its dispatch.  `pending` is the armed timer
`(deadline, percent)`; the result is the list of percents dispatched to
`apiHelper.setFanSpeed`, in order. -/
def debounceRun (evts : List (Nat × Int)) (pending : Option (Nat × Int)) :
    List Int :=
  match evts, pending with
  | [], none => []
  | [], some (_, v) => [v]
  | (t, v) :: rest, none => debounceRun rest (some (t + 300, v))
  | (t, v) :: rest, some (ft, fv) =>
      if ft ≤ t then fv :: debounceRun rest (some (t + 300, v))
      else debounceRun rest (some (t + 300, v))

/-- Dispatches produced by a chronological sequence of `setSpeed` requests
`(arrival time, percent)`, starting with no timer armed. -/
def setSpeedDispatches (evts : List (Nat × Int)) : List Int :=
  debounceRun evts none

/-- Successive requests all inside the 300 ms quiet window: each arrives
strictly before the previous request's timer deadline. -/
def gapsOk : List (Nat × Int) → Bool
  | [] => true
  | [_] => true
  | (t, _) :: (t', v') :: rest => decide (t' < t + 300) && gapsOk ((t', v') :: rest)

/-- From the words of claim C9: `p` rounded to the nearest of the buckets
{25, 50, 75, 100} (ties kept at the smaller bucket).  This is the spec-side
notion the code's composition is compared against. -/
def specNearestBucket (p : Int) : Int :=
  [(25 : Int), 50, 75, 100].foldl
    (fun best b => if (p - b).natAbs < (p - best).natAbs then b else best) 25

/-! ### Store lemmas -/

lemma getStatusMap_updateById (store : Store) (id : String) (f : Status → Status)
    (hf : ∀ s, (f s).id = s.id) :
    getStatusMap (updateById store id f) id = (getStatusMap store id).map f := by
  induction store with
  | nil => rfl
  | cons s rest ih =>
      by_cases hpa : (s.id == id) = true
      · have hfa : ((f s).id == id) = true := by rw [hf]; exact hpa
        simp [updateById, getStatusMap, hpa, hfa]
      · simp [updateById, getStatusMap, hpa, ih]

lemma updateById_eq_of_not_found (store : Store) (id : String)
    (f : Status → Status) (h : getStatusMap store id = none) :
    updateById store id f = store := by
  induction store with
  | nil => rfl
  | cons s rest ih =>
      by_cases hpa : (s.id == id) = true
      · simp [getStatusMap, hpa] at h
      · simp [getStatusMap, hpa] at h
        simp [updateById, hpa, ih h]

lemma getStatusMap_setStatusMap_found (store : Store) (id : String)
    (sw st : Int) (sp : Option (Option Int)) (s0 : Status)
    (h : getStatusMap store id = some s0) :
    getStatusMap (setStatusMap store id sw st sp) id =
      some { s0 with
             switchmap := sw
             statusmap := st
             speedValue := match sp with
               | none => s0.speedValue
               | some v => v } := by
  unfold setStatusMap
  rw [h]
  rw [getStatusMap_updateById]
  · rw [h]
    rfl
  · intro s
    rfl

lemma getStatusMap_setStatusMap_new (store : Store) (id : String)
    (sw st : Int) (sp : Option (Option Int))
    (h : getStatusMap store id = none) :
    getStatusMap (setStatusMap store id sw st sp) id =
      some (Status.mkNew id sw st (sp.getD none)) := by
  unfold setStatusMap
  rw [h]
  induction store with
  | nil => simp [getStatusMap, Status.mkNew]
  | cons s rest ih =>
      by_cases hpa : (s.id == id) = true
      · simp [getStatusMap, hpa] at h
      · simp [getStatusMap, hpa] at h ⊢
        exact ih h

lemma getStatusMap_saveRollbackState (store : Store) (id : String)
    (s0 : Status) (h : getStatusMap store id = some s0) :
    getStatusMap (saveRollbackState store id) id =
      some { s0 with previousState := some ⟨s0.statusmap, s0.speedValue⟩ } := by
  unfold saveRollbackState
  rw [getStatusMap_updateById]
  · rw [h]
    rfl
  · intro s
    rfl

lemma getStatusMap_markCommandInProgress (now : Int) (store : Store)
    (id : String) (s0 : Status) (h : getStatusMap store id = some s0) :
    getStatusMap (markCommandInProgress now store id) id =
      some { s0 with pendingUpdate := true, lastCommandTimestamp := now } := by
  unfold markCommandInProgress
  rw [getStatusMap_updateById]
  · rw [h]
    rfl
  · intro s
    rfl

lemma getStatusMap_markCommandComplete (store : Store) (id : String)
    (s0 : Status) (h : getStatusMap store id = some s0) :
    getStatusMap (markCommandComplete store id) id =
      some { s0 with pendingUpdate := false } := by
  unfold markCommandComplete
  rw [getStatusMap_updateById]
  · rw [h]
    rfl
  · intro s
    rfl

lemma rollbackState_found_snapshot (store : Store) (id : String) (s0 : Status)
    (p : PrevState) (h : getStatusMap store id = some s0)
    (hp : s0.previousState = some p) :
    rollbackState store id =
      (true,
        updateById store id (fun s =>
          { s with
            statusmap := p.statusmap
            speedValue := p.speedValue
            previousState := none })) := by
  unfold rollbackState
  rw [h]
  dsimp only
  rw [hp]

/-- Characterization of the cache effect of a fan toggle on an existing
record, for each transport outcome. -/
lemma fanSetOnOff_getStatusMap (store : Store) (id : String) (now : Int)
    (targetOn : Bool) (s0 : Status) (h : getStatusMap store id = some s0) :
    (getStatusMap (fanSetOnOff store id now targetOn .ok) id =
      some { s0 with
             switchmap := 112
             statusmap := if targetOn then 112 else 0
             speedValue := if targetOn then
                 some (match s0.speedValue with
                       | some v => if v > 0 then v else 1
                       | none => 1)
               else s0.speedValue
             lastCommandTimestamp := now
             pendingUpdate := false
             previousState := some ⟨s0.statusmap, s0.speedValue⟩ }) ∧
    (getStatusMap (fanSetOnOff store id now targetOn .err) id =
      some { s0 with switchmap := 112, lastCommandTimestamp := now,
                     pendingUpdate := false, previousState := none }) ∧
    (getStatusMap (fanSetOnOff store id now targetOn .exn) id =
      some { s0 with switchmap := 112, lastCommandTimestamp := now,
                     pendingUpdate := false, previousState := none }) := by
  have h1 := getStatusMap_saveRollbackState _ _ _ h
  have h2 := getStatusMap_markCommandInProgress now _ _ _ h1
  refine ⟨?_, ?_, ?_⟩
  · simp only [fanSetOnOff]
    rw [h2]
    dsimp only [Option.bind]
    rw [getStatusMap_markCommandComplete _ _ _
      (getStatusMap_setStatusMap_found _ _ _ _ _ _ h2)]
  · simp only [fanSetOnOff]
    rw [h2]
    dsimp only [Option.bind]
    have h4 := getStatusMap_markCommandComplete _ _ _
      (getStatusMap_setStatusMap_found _ _ 112 (if targetOn then 112 else 0)
        (some (if targetOn then
                some (match s0.speedValue with
                      | some v => if v > 0 then v else 1
                      | none => 1)
              else s0.speedValue)) _ h2)
    rw [rollbackState_found_snapshot _ _ _ _ h4 rfl]
    dsimp only
    rw [getStatusMap_updateById]
    · rw [h4]
      rfl
    · intro s
      rfl
  · simp only [fanSetOnOff]
    rw [h2]
    dsimp only [Option.bind]
    have h4 := getStatusMap_markCommandComplete _ _ _
      (getStatusMap_setStatusMap_found _ _ 112 (if targetOn then 112 else 0)
        (some (if targetOn then
                some (match s0.speedValue with
                      | some v => if v > 0 then v else 1
                      | none => 1)
              else s0.speedValue)) _ h2)
    rw [rollbackState_found_snapshot _ _ _ _ h4 rfl]
    dsimp only
    rw [getStatusMap_updateById]
    · rw [h4]
      rfl
    · intro s
      rfl

/-! ### Bit-level lemmas for the on/off decode -/

lemma int_ofNat_eq_one (x : Nat) : (Int.ofNat x = 1) ↔ x = 1 :=
  ⟨fun h => by injection h, fun h => by rw [h]; rfl⟩

lemma nat_and_two_pow_ne (n s : Nat) :
    ((n &&& 2 ^ s) ≠ 0) ↔ n.testBit s = true := by
  rw [Nat.and_two_pow]
  cases h : n.testBit s
  · simp [h]
  · simp [h]

lemma nat_shift_and_one (n s : Nat) :
    ((n >>> s) &&& 1 = 1) ↔ n.testBit s = true := by
  rw [Nat.and_one_is_mod, Nat.shiftRight_eq_div_pow, Nat.testBit_to_div_mod]
  simp

lemma ldiff_two_pow (s n : Nat) :
    Nat.ldiff (2 ^ s) n = if n.testBit s then 0 else 2 ^ s := by
  apply Nat.eq_of_testBit_eq
  intro i
  rw [Nat.testBit_ldiff, Nat.testBit_two_pow]
  by_cases hsi : s = i
  · subst hsi
    by_cases hns : n.testBit s <;> simp [hns]
  · by_cases hns : n.testBit s <;> simp [hsi, hns]

lemma ldiff_two_pow_ne (s n : Nat) :
    (Nat.ldiff (2 ^ s) n ≠ 0) ↔ n.testBit s = false := by
  rw [ldiff_two_pow]
  cases h : n.testBit s <;> simp [h]

lemma ldiff_one_eq_one (m : Nat) :
    (Nat.ldiff 1 m = 1) ↔ m.testBit 0 = false := by
  have h1 : (1 : Nat) = 2 ^ 0 := rfl
  rw [h1, ldiff_two_pow]
  cases h : m.testBit 0 <;> simp [h]

lemma two_pow_int_ofNat (s : Nat) : ((2 : Int) ^ s) = Int.ofNat (2 ^ s) := by
  exact_mod_cast rfl

/-! ### Claim theorems -/

/-- C2: for every device record and either toggle direction (ON or OFF),
a fan toggle whose transport reports failure or throws leaves `statusmap`
and `speedValue` exactly at their pre-command values and clears the
rollback snapshot (the final record differs from the pre-command one only
in `switchmap`, the command timestamp and the cleared pending flag). -/
theorem fanToggle_failure_rolls_back (store : Store) (id : String) (now : Int)
    (targetOn : Bool) (s0 : Status) (h : getStatusMap store id = some s0) :
    getStatusMap (fanSetOnOff store id now targetOn .err) id =
      some { s0 with switchmap := 112, lastCommandTimestamp := now,
                     pendingUpdate := false, previousState := none } ∧
    getStatusMap (fanSetOnOff store id now targetOn .exn) id =
      some { s0 with switchmap := 112, lastCommandTimestamp := now,
                     pendingUpdate := false, previousState := none } :=
  ⟨(fanSetOnOff_getStatusMap store id now targetOn s0 h).2.1,
   (fanSetOnOff_getStatusMap store id now targetOn s0 h).2.2⟩

/-- Witness for C2 at a concrete input: record with `statusmap = 0`,
toggle-ON, transport failure — final `statusmap = 0`, `speedValue`
unchanged, snapshot cleared. -/
theorem fanToggle_failure_rolls_back_witness :
    getStatusMap [Status.mkNew "d" 255 0 none] "d" =
      some (Status.mkNew "d" 255 0 none) ∧
    getStatusMap (fanSetOnOff [Status.mkNew "d" 255 0 none] "d" 5 true .err) "d" =
      some { Status.mkNew "d" 255 0 none with
             switchmap := 112, lastCommandTimestamp := 5,
             pendingUpdate := false, previousState := none } :=
  ⟨rfl, (fanToggle_failure_rolls_back [Status.mkNew "d" 255 0 none] "d" 5 true
    (Status.mkNew "d" 255 0 none) rfl).1⟩

/-- C7 counterexample: after a toggle whose transport call *succeeds*, the
rollback snapshot is still present while `pendingUpdate` is false — the
snapshot is not cleared on confirmation, refuting "the snapshot is
non-empty only while pendingUpdate is true". -/
theorem rollback_snapshot_persists_after_success :
    (getStatusMap (fanSetOnOff [Status.mkNew "d" 255 0 (some 2)] "d" 5 true .ok)
        "d").map Status.pendingUpdate = some false ∧
    (getStatusMap (fanSetOnOff [Status.mkNew "d" 255 0 (some 2)] "d" 5 true .ok)
        "d").bind Status.previousState = some ⟨0, some 2⟩ := by
  refine ⟨?_, ?_⟩ <;> decide

/-- C7 amended: the rollback snapshot is taken immediately before the
optimistic write (on success it still holds the pre-command
`{statusmap, speedValue}`) and is cleared when the command is rolled back
on failure or exception; it is NOT cleared on transport success, where it
persists although `pendingUpdate` has been reset to false. -/
theorem rollback_snapshot_lifecycle (store : Store) (id : String) (now : Int)
    (targetOn : Bool) (s0 : Status) (h : getStatusMap store id = some s0) :
    (getStatusMap (fanSetOnOff store id now targetOn .err) id).bind
        Status.previousState = none ∧
    (getStatusMap (fanSetOnOff store id now targetOn .exn) id).bind
        Status.previousState = none ∧
    (getStatusMap (fanSetOnOff store id now targetOn .ok) id).bind
        Status.previousState = some ⟨s0.statusmap, s0.speedValue⟩ ∧
    (getStatusMap (fanSetOnOff store id now targetOn .ok) id).map
        Status.pendingUpdate = some false := by
  obtain ⟨hok, herr, hexn⟩ := fanSetOnOff_getStatusMap store id now targetOn s0 h
  rw [hok, herr, hexn]
  exact ⟨rfl, rfl, rfl, rfl⟩

/-- Witness for C7's amended theorem at a concrete input. -/
theorem rollback_snapshot_lifecycle_witness :
    getStatusMap [Status.mkNew "d" 255 112 (some 3)] "d" =
      some (Status.mkNew "d" 255 112 (some 3)) ∧
    ((getStatusMap (fanSetOnOff [Status.mkNew "d" 255 112 (some 3)] "d" 9 false .err)
        "d").bind Status.previousState = none ∧
     (getStatusMap (fanSetOnOff [Status.mkNew "d" 255 112 (some 3)] "d" 9 false .exn)
        "d").bind Status.previousState = none ∧
     (getStatusMap (fanSetOnOff [Status.mkNew "d" 255 112 (some 3)] "d" 9 false .ok)
        "d").bind Status.previousState =
          some ⟨(Status.mkNew "d" 255 112 (some 3)).statusmap,
                (Status.mkNew "d" 255 112 (some 3)).speedValue⟩ ∧
     (getStatusMap (fanSetOnOff [Status.mkNew "d" 255 112 (some 3)] "d" 9 false .ok)
        "d").map Status.pendingUpdate = some false) :=
  ⟨rfl, rollback_snapshot_lifecycle [Status.mkNew "d" 255 112 (some 3)] "d" 9 false
    (Status.mkNew "d" 255 112 (some 3)) rfl⟩

/-- C10: on an id with no record, the mutators `markCommandInProgress`,
`markCommandComplete`, `saveRollbackState`, `setPreservedSpeedValue` and
`setPreservedAtOff` leave the store completely unchanged, `rollbackState`
returns false without touching the store, `shouldSkipRefreshUpdate`
returns false, and `setStatusMap` creates a fresh record for the id. -/
theorem unknown_id_mutators_noop (store : Store) (id : String) (now grace : Int)
    (v : Option Int) (sw st : Int) (sp : Option (Option Int))
    (h : getStatusMap store id = none) :
    markCommandInProgress now store id = store ∧
    markCommandComplete store id = store ∧
    saveRollbackState store id = store ∧
    setPreservedSpeedValue store id v = store ∧
    setPreservedAtOff store id v = store ∧
    rollbackState store id = (false, store) ∧
    shouldSkipRefreshUpdate now store id grace = false ∧
    getStatusMap (setStatusMap store id sw st sp) id =
      some (Status.mkNew id sw st (sp.getD none)) := by
  refine ⟨?_, ?_, ?_, ?_, ?_, ?_, ?_, ?_⟩
  · exact updateById_eq_of_not_found _ _ _ h
  · exact updateById_eq_of_not_found _ _ _ h
  · exact updateById_eq_of_not_found _ _ _ h
  · exact updateById_eq_of_not_found _ _ _ h
  · exact updateById_eq_of_not_found _ _ _ h
  · unfold rollbackState
    rw [h]
  · unfold shouldSkipRefreshUpdate
    rw [h]
  · exact getStatusMap_setStatusMap_new _ _ _ _ _ h

/-- Witness for C10 on the empty store. -/
theorem unknown_id_mutators_noop_witness :
    getStatusMap ([] : Store) "x" = none ∧
    (markCommandInProgress 5 [] "x" = [] ∧
     markCommandComplete [] "x" = [] ∧
     saveRollbackState [] "x" = [] ∧
     setPreservedSpeedValue [] "x" (some 2) = [] ∧
     setPreservedAtOff [] "x" (some 2) = [] ∧
     rollbackState [] "x" = (false, []) ∧
     shouldSkipRefreshUpdate 5 [] "x" 1000 = false ∧
     getStatusMap (setStatusMap [] "x" 255 7 none) "x" =
       some (Status.mkNew "x" 255 7 none)) :=
  ⟨rfl, unknown_id_mutators_noop [] "x" 5 1000 (some 2) 255 7 none rfl⟩

/-- Unbounded two's-complement core of the decode equivalence: for every
integer `a` (not yet coerced) the mask test against `2^s` agrees with the
shifted bit test.  Applied to int32-range values by the claim theorem. -/
lemma land_pow_ne_iff_shift (a : Int) (s : Nat) :
    Int.land a ((2 : Int) ^ s) ≠ 0 ↔ Int.land (Int.shiftRight a s) 1 = 1 := by
  cases a with
  | ofNat n =>
      rw [two_pow_int_ofNat]
      rw [show Int.land (Int.ofNat n) (Int.ofNat (2 ^ s)) =
        Int.ofNat (n &&& 2 ^ s) from rfl]
      rw [show Int.shiftRight (Int.ofNat n) s = Int.ofNat (n >>> s) from rfl]
      rw [show Int.land (Int.ofNat (n >>> s)) 1 =
        Int.ofNat ((n >>> s) &&& 1) from rfl]
      rw [int_ofNat_eq_one]
      rw [show (Int.ofNat (n &&& 2 ^ s) ≠ 0) ↔ ((n &&& 2 ^ s) ≠ 0) from by simp]
      rw [nat_and_two_pow_ne, nat_shift_and_one]
  | negSucc n =>
      rw [two_pow_int_ofNat]
      rw [show Int.land (Int.negSucc n) (Int.ofNat (2 ^ s)) =
        Int.ofNat (Nat.ldiff (2 ^ s) n) from rfl]
      rw [show Int.shiftRight (Int.negSucc n) s = Int.negSucc (n >>> s) from rfl]
      rw [show Int.land (Int.negSucc (n >>> s)) 1 =
        Int.ofNat (Nat.ldiff 1 (n >>> s)) from rfl]
      rw [int_ofNat_eq_one]
      rw [show (Int.ofNat (Nat.ldiff (2 ^ s) n) ≠ 0) ↔
        (Nat.ldiff (2 ^ s) n ≠ 0) from by simp]
      rw [ldiff_two_pow_ne, ldiff_one_eq_one]
      rw [Nat.testBit_shiftRight]
      rw [Nat.add_zero]

lemma toInt32_of_range (x : Int) (h1 : -2147483648 ≤ x) (h2 : x < 2147483648) :
    toInt32 x = x := by
  simp only [toInt32]
  split <;> omega

lemma toInt32_mem_range (x : Int) :
    -2147483648 ≤ toInt32 x ∧ toInt32 x < 2147483648 := by
  refine ⟨?_, ?_⟩ <;> (simp only [toInt32]; split <;> omega)

lemma shiftRight_int32_range (a : Int) (s : Nat)
    (h1 : -2147483648 ≤ a) (h2 : a < 2147483648) :
    -2147483648 ≤ Int.shiftRight a s ∧ Int.shiftRight a s < 2147483648 := by
  cases a with
  | ofNat n =>
      rw [show Int.shiftRight (Int.ofNat n) s = Int.ofNat (n >>> s) from rfl]
      have hle : n >>> s ≤ n := by
        rw [Nat.shiftRight_eq_div_pow]
        exact Nat.div_le_self _ _
      rw [Int.ofNat_eq_natCast] at h2 ⊢
      generalize n >>> s = m at hle ⊢
      omega
  | negSucc n =>
      rw [show Int.shiftRight (Int.negSucc n) s = Int.negSucc (n >>> s) from rfl]
      have hle : n >>> s ≤ n := by
        rw [Nat.shiftRight_eq_div_pow]
        exact Nat.div_le_self _ _
      rw [Int.negSucc_eq] at h1 ⊢
      generalize n >>> s = m at hle ⊢
      omega

lemma ldiff_mask_zero (k na : Nat) (h : na < 2 ^ k) :
    Nat.ldiff na (2 ^ k - 1) = 0 := by
  apply Nat.eq_of_testBit_eq
  intro i
  rw [Nat.testBit_ldiff, Nat.testBit_two_pow_sub_one, Nat.zero_testBit]
  by_cases hik : i < k
  · simp [hik]
  · have hni : na.testBit i = false :=
      Nat.testBit_lt_two_pow
        (lt_of_lt_of_le h (Nat.pow_le_pow_right (by omega) (by omega)))
    simp [hni]

/-- C8 counterexample: at `statusBitmap = 1`, `sequence = 32` the program's
decode is false — `Math.pow(2, 32)` coerces to 0 under ToInt32, so the mask
test is `1 & 0` — while `(1 >> 32) & 1` is `(1 >> 0) & 1 = 1` because the
shift count is taken mod 32; the equivalence claimed for every
`sequence >= 0` is false of the program. -/
theorem isOn_wraps_at_sequence_32 :
    isOn 1 32 = false ∧ jsAnd (jsShr 1 32) 1 = 1 := by
  refine ⟨?_, ?_⟩ <;> decide

/-- C8 amended: for every sequence `s ≤ 31` — every bit position an int32
status bitmap has — and every integer `statusBitmap`, the decode
`(statusBitmap & bitFor(sequence)) != 0` (JavaScript 32-bit `&`, with
`bitFor(sequence) = 2^sequence`) agrees with
`((statusBitmap >> sequence) & 1) == 1`; for sequence 32 and beyond the
mask wraps to 0 while the shift count wraps mod 32, and the equivalence
fails. -/
theorem isOn_iff_shifted_bit_within32 (b : Int) (s : Nat) (hs : s ≤ 31) :
    isOn b s = true ↔ jsAnd (jsShr b s) 1 = 1 := by
  obtain ⟨hlo, hhi⟩ := toInt32_mem_range b
  have hmod : s % 32 = s := Nat.mod_eq_of_lt (by omega)
  obtain ⟨hrlo, hrhi⟩ := shiftRight_int32_range (toInt32 b) s hlo hhi
  have hRHS : jsAnd (jsShr b s) 1 = Int.land (Int.shiftRight (toInt32 b) s) 1 := by
    unfold jsAnd jsShr
    rw [hmod, toInt32_of_range _ hrlo hrhi,
      show toInt32 1 = 1 from by decide]
  rw [hRHS, ← land_pow_ne_iff_shift (toInt32 b) s]
  unfold isOn jsAnd getSwitchMap
  simp only [bne_iff_ne, ne_eq]
  by_cases h31 : s = 31
  · subst h31
    rw [show toInt32 ((2 : Int) ^ 31) = Int.negSucc 2147483647 from by decide]
    rw [show ((2 : Int) ^ 31) = Int.ofNat 2147483648 from by decide]
    cases ha : toInt32 b with
    | ofNat na =>
        have hna : na < 2147483648 := by
          rw [ha, Int.ofNat_eq_natCast] at hhi
          exact_mod_cast hhi
        rw [show Int.land (Int.ofNat na) (Int.negSucc 2147483647) =
          Int.ofNat (Nat.ldiff na 2147483647) from rfl]
        rw [show Int.land (Int.ofNat na) (Int.ofNat 2147483648) =
          Int.ofNat (na &&& 2147483648) from rfl]
        rw [show Nat.ldiff na 2147483647 = 0 from by
          rw [show (2147483647 : Nat) = 2 ^ 31 - 1 from by norm_num]
          exact ldiff_mask_zero 31 na
            (by rw [show (2 : Nat) ^ 31 = 2147483648 from by norm_num]; exact hna)]
        rw [show (na &&& 2147483648) = 0 from by
          rw [show (2147483648 : Nat) = 2 ^ 31 from by norm_num, Nat.and_two_pow,
            Nat.testBit_lt_two_pow
              (by rw [show (2 : Nat) ^ 31 = 2147483648 from by norm_num]; exact hna)]
          simp]
    | negSucc n =>
        have hn : n < 2147483648 := by
          rw [ha, Int.negSucc_eq] at hlo
          omega
        rw [show Int.land (Int.negSucc n) (Int.negSucc 2147483647) =
          Int.negSucc (n ||| 2147483647) from rfl]
        rw [show Int.land (Int.negSucc n) (Int.ofNat 2147483648) =
          Int.ofNat (Nat.ldiff 2147483648 n) from rfl]
        rw [show Nat.ldiff 2147483648 n = 2147483648 from by
          rw [show (2147483648 : Nat) = 2 ^ 31 from by norm_num, ldiff_two_pow,
            Nat.testBit_lt_two_pow
              (by rw [show (2 : Nat) ^ 31 = 2147483648 from by norm_num]; exact hn)]
          simp]
        exact ⟨fun _ => by decide, fun _ h => Int.noConfusion h⟩
  · have hs30 : s ≤ 30 := by omega
    have h1 : ((2 : Int) ^ s) ≤ 1073741824 := by
      calc ((2 : Int) ^ s) ≤ 2 ^ 30 := pow_le_pow_right₀ (by norm_num) hs30
        _ = 1073741824 := by norm_num
    have h2 : ((0 : Int)) ≤ 2 ^ s := by positivity
    rw [toInt32_of_range ((2 : Int) ^ s) (by omega) (by omega)]

/-- Witness for C8's amended theorem at `statusBitmap = -1` (the error
sentinel), `sequence = 31`. -/
theorem isOn_iff_shifted_bit_within32_witness :
    (31 : Nat) ≤ 31 ∧ (isOn (-1) 31 = true ↔ jsAnd (jsShr (-1) 31) 1 = 1) :=
  ⟨by decide, isOn_iff_shifted_bit_within32 (-1) 31 (by decide)⟩

/-- With every request arriving inside the previous request's 300 ms
window, the armed timer is always cancelled before firing, so only the
final request's value is ever dispatched. -/
lemma debounceRun_gapsOk (t : Nat) (v : Int) (rest : List (Nat × Int))
    (h : gapsOk ((t, v) :: rest) = true) :
    debounceRun rest (some (t + 300, v)) = [(rest.getLastD (t, v)).2] := by
  induction rest generalizing t v with
  | nil => rfl
  | cons e rest ih =>
      obtain ⟨tq, vq⟩ := e
      have hlt : tq < t + 300 := by
        simp [gapsOk] at h
        exact h.1
      have htail : gapsOk ((tq, vq) :: rest) = true := by
        simp [gapsOk] at h
        simpa [gapsOk] using h.2
      unfold debounceRun
      rw [if_neg (by omega)]
      rw [ih tq vq htail]
      rw [List.getLastD_cons]

/-- C6: for every non-empty burst of speed requests in which each request
arrives within 300 ms of the previous one, exactly one dispatch reaches
the transport and it carries the last requested value; earlier values in
the burst are never dispatched. -/
theorem debounce_dispatches_last_only (t : Nat) (v : Int)
    (rest : List (Nat × Int)) (h : gapsOk ((t, v) :: rest) = true) :
    setSpeedDispatches ((t, v) :: rest) = [(rest.getLastD (t, v)).2] :=
  debounceRun_gapsOk t v rest h

/-- Witness for C6: requests 25 %, 50 %, 75 % at 0/100/200 ms produce the
single dispatch `[75]`. -/
theorem debounce_dispatches_last_only_witness :
    gapsOk [(0, 25), (100, 50), (200, 75)] = true ∧
    setSpeedDispatches [(0, 25), (100, 50), (200, 75)] = [75] :=
  ⟨by decide, debounce_dispatches_last_only 0 25 [(100, 50), (200, 75)] (by decide)⟩

/-- C1 (code bug): a device whose record has `pendingUpdate = true` — so
`shouldSkipRefreshUpdate` returns true for any grace window — still has a
successful poll result merged over its optimistic `statusmap = 112`: the
refresh cycle never consults the guard and the cached optimistic value is
lost. -/
theorem refresh_merges_despite_skip_guard :
    shouldSkipRefreshUpdate 1000
      [{ Status.mkNew "d1" 255 112 (some 3) with
         pendingUpdate := true, lastCommandTimestamp := 1000 }] "d1" 10000 = true ∧
    (getStatusMap (executeRefreshSuccess
      [{ Status.mkNew "d1" 255 112 (some 3) with
         pendingUpdate := true, lastCommandTimestamp := 1000 }] "d1"
      (some 255) (some 0)) "d1").map Status.statusmap = some 0 := by
  refine ⟨?_, ?_⟩ <;> decide

/-- C3 (code bug): on a record with `preservedAtOff = 2` and current
`speedValue = 3`, toggle-ON restores speed 3 (the current speed) and
leaves `preservedAtOff` at 2 — the claimed priority
`preservedAtOff → preservedSpeedLevel → current speed → 1` and the
consumption of `preservedAtOff` are not implemented. -/
theorem fanToggle_on_ignores_preservedAtOff :
    (getStatusMap (fanSetOnOff
      [{ Status.mkNew "d" 255 0 (some 3) with
         preservedSpeedValue := some 2, preservedAtOff := some 2 }]
      "d" 5 true .ok) "d").bind Status.speedValue = some 3 ∧
    (getStatusMap (fanSetOnOff
      [{ Status.mkNew "d" 255 0 (some 3) with
         preservedSpeedValue := some 2, preservedAtOff := some 2 }]
      "d" 5 true .ok) "d").bind Status.preservedAtOff = some 2 := by
  refine ⟨?_, ?_⟩ <;> decide

/-- C4 (code bug): a *successful* speed-command response whose payload
reports `status = 0` rewrites the record's `statusmap` from the optimistic
112 to 0 — a speed response flips the cached power state to off. -/
theorem fanSpeedResponse_flips_power_on_status_zero :
    (getStatusMap
      [{ Status.mkNew "d" 255 112 (some 2) with pendingUpdate := true }]
      "d").map Status.statusmap = some 112 ∧
    (getStatusMap (fanSetSpeedResponse
      [{ Status.mkNew "d" 255 112 (some 2) with pendingUpdate := true }]
      "d" .ok (some 0) (some 2)) "d").map Status.statusmap = some 0 := by
  refine ⟨?_, ?_⟩ <;> decide

/-- C5 (code bug): after a failed poll the record holds `statusmap = -1`
but the previously cached `speedValue = 3` is retained (the speed argument
is `undefined`, which `setStatusMap` treats as "do not touch"), violating
the claimed invariant that `-1` is never combined with a non-null speed;
the on/off read does surface a communication failure. -/
theorem refresh_failure_keeps_stale_speed :
    (getStatusMap (executeRefreshFailure
      [Status.mkNew "d" 255 112 (some 3)] "d") "d").map Status.statusmap =
        some (-1) ∧
    (getStatusMap (executeRefreshFailure
      [Status.mkNew "d" 255 112 (some 3)] "d") "d").bind Status.speedValue =
        some 3 ∧
    fanGetOnOffState (executeRefreshFailure
      [Status.mkNew "d" 255 112 (some 3)] "d") "d" =
        .error "SERVICE_COMMUNICATION_FAILURE" := by
  refine ⟨?_, ?_, ?_⟩
  · decide
  · decide
  · rfl

/-- C9 counterexample: at `p = 26` the code's composition yields the 50
bucket while the nearest of {25, 50, 75, 100} to 26 is 25 — the
composition rounds *up*, not to the nearest bucket. -/
theorem composition_not_nearest_bucket :
    valueToPercent (some (percentToSpeedLevel 26)) = 50 ∧
    specNearestBucket 26 = 25 ∧ (50 : Int) ≠ 25 := by
  refine ⟨?_, ?_, ?_⟩ <;> decide

/-- C9 amended: for every percent `p` in `(0, 100]` the composition
`valueToPercent (percentToSpeedLevel p)` equals `p` rounded *up* to the
next multiple of 25 (i.e. `25 * ⌈p/25⌉`), and the claim's concrete
instances hold. -/
theorem speed_roundtrip_ceil_bucket :
    (∀ p : Int, 0 < p → p ≤ 100 →
      valueToPercent (some (percentToSpeedLevel p)) = 25 * ((p + 24) / 25)) ∧
    percentToSpeedLevel 26 = 2 ∧ percentToSpeedLevel 100 = 4 ∧
    percentToSpeedLevel 25 = 1 := by
  refine ⟨?_, by decide, by decide, by decide⟩
  intro p h1 h2
  simp only [valueToPercent, percentToSpeedLevel]
  split_ifs <;> omega

/-- Witness for C9's amended theorem at `p = 60` (bucket 75). -/
theorem speed_roundtrip_ceil_bucket_witness :
    (0 : Int) < 60 ∧ (60 : Int) ≤ 100 ∧
    valueToPercent (some (percentToSpeedLevel 60)) = 25 * (((60 : Int) + 24) / 25) :=
  ⟨by decide, by decide, speed_roundtrip_ceil_bucket.1 60 (by decide) (by decide)⟩

end Smarteefi
